import Mathlib

/-!
Shallow embedding of the adaptive polling coordinator of the
`isin_quotes` integration (custom_components/isin_quotes):
`market_hours.py`, `const.py`, the fetch path of `api_client.py`, and
`coordinator.py`.  Network transport, the IANA timezone database and the
wall clock are modelled as explicit environment parameters; the host
framework's data-caching contract around `_async_update_data` is modelled
by a small `refresh` wrapper.
-/

namespace IsinQuotes

/-- Python values appearing inside a JSON-decoded dict body. -/
inductive PyVal where
  | pyNone
  | pyInt (n : Int)
  | pyStr (s : String)

/-- A JSON object body, Python `dict[str, Any]`, as an association list. -/
abbrev Snapshot := List (String × PyVal)

/-- Python `d.get(k)` / `k in d` on a dict: first binding of the key wins. -/
def dictGet {α : Type} (k : String) : List (String × α) → Option α
  | [] => none
  | (k', v) :: rest => if k = k' then some v else dictGet k rest

/-- Python `v is None` on a stored dict value. -/
def isPyNone : PyVal → Bool
  | .pyNone => true
  | _ => false

/-! ### const.py -/

def BASE_URL : String := "https://component-api.wertpapiere.ing.de/api/v1/"

/-- `INSTRUMENT_HEADER_EP.format(isin=isin)` for
`INSTRUMENT_HEADER_EP = "components-ng/instrumentheader/" + an isin slot`. -/
def instrumentHeaderPath (isin : String) : String :=
  "components-ng/instrumentheader/" ++ isin

def DEFAULT_UPDATE_INTERVAL : Nat := 60

def OPEN_UPDATE_INTERVAL : Nat := 60

def CLOSED_UPDATE_INTERVAL : Nat := 15 * 60

/-! ### market_hours.py -/

/-- Weekday order helper: index 0..6 matches Python `datetime.weekday()`. -/
def WEEKDAYS : List String := ["mon", "tue", "wed", "thu", "fri", "sat", "sun"]

/-- One entry of `MARKET_HOURS`: display name, IANA timezone name, and the
per-weekday open/close dicts (`openTimes`/`closeTimes` embed the source's
`"open"`/`"close"` keys; `open` is a Lean keyword). -/
structure MarketInfo where
  name : String
  tz : String
  openTimes : List (String × String)
  closeTimes : List (String × String)

/-- The per-weekday dict with Monday..Friday entries and a weekend value of
the empty string, as written out entry by entry in the source. -/
def weekSchedule (wk : String) : List (String × String) :=
  [("mon", wk), ("tue", wk), ("wed", wk), ("thu", wk), ("fri", wk),
   ("sat", ""), ("sun", "")]

/-- The static `MARKET_HOURS` table of market_hours.py, verbatim (every
entry has Mon–Fri sessions and empty weekend strings). -/
def MARKET_HOURS : List (String × MarketInfo) :=
  [ ("TGT", ⟨"Direkthandel", "Europe/Berlin", weekSchedule "08:00", weekSchedule "22:00"⟩),
    ("FRA", ⟨"Frankfurt", "Europe/Berlin", weekSchedule "08:00", weekSchedule "22:00"⟩),
    ("STU", ⟨"Stuttgart", "Europe/Berlin", weekSchedule "08:00", weekSchedule "22:00"⟩),
    ("DUS", ⟨"Düsseldorf", "Europe/Berlin", weekSchedule "08:00", weekSchedule "20:00"⟩),
    ("ETR", ⟨"XETRA", "Europe/Berlin", weekSchedule "09:00", weekSchedule "17:30"⟩),
    ("MUC", ⟨"München", "Europe/Berlin", weekSchedule "08:00", weekSchedule "22:00"⟩),
    ("BEB", ⟨"Berlin", "Europe/Berlin", weekSchedule "08:00", weekSchedule "20:00"⟩),
    ("HAM", ⟨"Hamburg", "Europe/Berlin", weekSchedule "08:00", weekSchedule "22:00"⟩),
    ("HAJ", ⟨"Hannover", "Europe/Berlin", weekSchedule "08:00", weekSchedule "22:00"⟩),
    ("UTC", ⟨"Nasdaq", "Amerika/New_York", weekSchedule "09:30", weekSchedule "16:00"⟩),
    ("USC", ⟨"New York Stock Exchange", "Amerika/New_York", weekSchedule "09:30", weekSchedule "16:00"⟩) ]

/-! ### Environment: timezone database and clock -/

/-- Model of the external IANA tz database consulted by `ZoneInfo(key)`,
restricted to the timezone names occurring in `MARKET_HOURS`:
`"Europe/Berlin"` is a valid IANA key; `"Amerika/New_York"` is not a key of
the tz database (the IANA name is `"America/New_York"`), so
`ZoneInfo("Amerika/New_York")` raises `ZoneInfoNotFoundError`. -/
def zoneInfoValid (key : String) : Bool := key = "Europe/Berlin"

/-- The key standing for `dt_util.DEFAULT_TIME_ZONE`, used when a table
entry has a falsy `tz` field (never the case for the shipped table). -/
def DEFAULT_TIME_ZONE_KEY : String := "DEFAULT_TIME_ZONE"

/-- A local `datetime.now(tz)` value: weekday as in `datetime.weekday()`
(0 = Monday) plus the time-of-day fields.  Only same-date comparisons occur
in the source (`replace` keeps the date), so the date itself is not
modelled. -/
structure LocalDT where
  weekday : Fin 7
  hour : Nat
  minute : Nat
  second : Nat
  microsecond : Nat

/-- `now_local.replace(hour=h, minute=m, second=0, microsecond=0)`. -/
def LocalDT.replaceHM (t : LocalDT) (h m : Nat) : LocalDT :=
  ⟨t.weekday, h, m, 0, 0⟩

/-- Python datetime `<=` for two datetimes sharing the same date:
lexicographic on (hour, minute, second, microsecond). -/
def LocalDT.timeLe (a b : LocalDT) : Bool :=
  if a.hour ≠ b.hour then a.hour < b.hour
  else if a.minute ≠ b.minute then a.minute < b.minute
  else if a.second ≠ b.second then a.second < b.second
  else a.microsecond ≤ b.microsecond

/-- The wall clock: for each resolvable timezone key, the current local
`datetime.now(tz)` of the one instant at which a refresh runs. -/
abbrev Clock := String → LocalDT

/-! ### Exceptions -/

/-- The `IngApiError` dataclass fields (api_client.py). -/
structure IngApiError where
  status : Option Nat
  url : Option String
  body_preview : Option String
  note : Option String

/-- The Python exceptions that can cross the boundaries modelled here. -/
inductive PyExc where
  | ingApiError (e : IngApiError)
  | jsonDecodeError
  | valueError
  | zoneInfoNotFoundError (key : String)
  | updateFailed (cause : PyExc)

/-! ### coordinator.py: `_is_market_open` -/

/-- `info.get("open", {}).get(wd_key) or ""`: dict lookup with a falsy
default of the empty string. -/
def dictGetOrEmpty (d : List (String × String)) (k : String) : String :=
  (dictGet k d).getD ""

/-- Python `str.strip()`: drop leading and trailing whitespace. -/
def pyStrip (s : String) : String :=
  ⟨((s.data.dropWhile Char.isWhitespace).reverse.dropWhile Char.isWhitespace).reverse⟩

/-- Splitting a character list on a separator character, keeping empty
fields, as Python `str.split(sep)` does. -/
def splitOnCharAux (sep : Char) : List Char → List (List Char)
  | [] => [[]]
  | c :: cs =>
    let r := splitOnCharAux sep cs
    if c = sep then [] :: r
    else
      match r with
      | [] => [[c]]
      | g :: gs => (c :: g) :: gs

/-- Python `s.split(sep)` for a one-character separator. -/
def pySplit (s : String) (sep : Char) : List String :=
  (splitOnCharAux sep s.data).map String.mk

/-- Decimal digit accumulation for `pyInt`. -/
def parseNatAux : List Char → Nat → Option Nat
  | [], acc => some acc
  | c :: cs, acc =>
    if c.isDigit then parseNatAux cs (acc * 10 + (c.toNat - 48))
    else none

/-- Python `int(s)` on the nonnegative decimal digit strings arising from
the market-hours table; any other string raises `ValueError` (`none`). -/
def pyInt (s : String) : Option Nat :=
  match s.data with
  | [] => none
  | cs => parseNatAux cs 0

/-- `o_h, o_m = map(int, s.split(":"))`: raises `ValueError` unless the
string splits into exactly two int fields. -/
def parseHM (s : String) : Except PyExc (Nat × Nat) :=
  match pySplit s ':' with
  | [h, m] =>
    match pyInt h, pyInt m with
    | some hh, some mm => .ok (hh, mm)
    | _, _ => .error .valueError
  | _ => .error .valueError

/-- Lines 62–74 of coordinator.py, given the selected (already stripped)
open/close strings and the local time: the closed-all-day early exit,
hour:minute parsing, and the overnight/regular session-window
comparison. -/
def sessionWindow (open_str close_str : String) (now_local : LocalDT) :
    Except PyExc (Option Bool) :=
  if open_str = "" ∨ close_str = "" then .ok (some false)
  else
    match parseHM open_str with
    | .error e => .error e
    | .ok (o_h, o_m) =>
      match parseHM close_str with
      | .error e => .error e
      | .ok (c_h, c_m) =>
        let open_dt := now_local.replaceHM o_h o_m
        let close_dt := now_local.replaceHM c_h c_m
        if close_dt.timeLe open_dt then
          .ok (some (open_dt.timeLe now_local || now_local.timeLe close_dt))
        else
          .ok (some (open_dt.timeLe now_local && now_local.timeLe close_dt))

/-- Lines 59–74 of coordinator.py, after the timezone was resolved to the
local time `now_local`: weekday key selection, stripped open/close
strings, then the session-window test. -/
def marketOpenAt (info : MarketInfo) (now_local : LocalDT) :
    Except PyExc (Option Bool) :=
  let wd_key := WEEKDAYS.getD now_local.weekday.val ""
  sessionWindow (pyStrip (dictGetOrEmpty info.openTimes wd_key))
    (pyStrip (dictGetOrEmpty info.closeTimes wd_key)) now_local

/-- `QuotesCoordinator._is_market_open` (coordinator.py lines 46–74).
Returns `some true` / `some false` when hours are known, `none` for an
unknown exchange; errors model the exceptions the Python code can raise
(`ZoneInfoNotFoundError` from `ZoneInfo`, `ValueError` from `int`). -/
def _is_market_open (clock : Clock) (exchange_code : Option String) :
    Except PyExc (Option Bool) :=
  match exchange_code with
  | none => .ok none
  | some ec =>
    if ec = "" then .ok none
    else
      match dictGet ec MARKET_HOURS with
      | none => .ok none
      | some info =>
        if info.tz ≠ "" then
          if zoneInfoValid info.tz then marketOpenAt info (clock info.tz)
          else .error (.zoneInfoNotFoundError info.tz)
        else marketOpenAt info (clock DEFAULT_TIME_ZONE_KEY)

/-- Every schedule string `marketOpenAt` can select from `info` is either
empty or parses as hour:minute — the property making `ValueError`
unreachable. -/
def infoWellFormed (info : MarketInfo) : Bool :=
  WEEKDAYS.all fun wd =>
    let o := pyStrip (dictGetOrEmpty info.openTimes wd)
    let c := pyStrip (dictGetOrEmpty info.closeTimes wd)
    o == "" || c == "" || ((parseHM o).isOk && (parseHM c).isOk)

/-! ### api_client.py: transport model and `_get_json` -/

/-- The decoded JSON body as far as `resp.json(content_type=None)` is
concerned: either it fails to decode (`json.JSONDecodeError`) or it yields
a dict. -/
inductive JsonBody where
  | malformed
  | decoded (d : Snapshot)

/-- What one HTTP GET of a URL does in the world: raise
`TimeoutError`/`ClientError`, or produce a response with a status, a JSON
body and a text form. -/
inductive HttpResult where
  | clientError
  | response (status : Nat) (body : JsonBody) (text : String)

/-- The network, as a map from URL to what a GET of it does. -/
abbrev Transport := String → HttpResult

/-- `IngApiClient._get_json` (api_client.py lines 53–64): non-200 statuses
raise `IngApiError(status=..., url=..., body_preview=text)`;
`TimeoutError`/`ClientError` are converted to
`IngApiError(url=..., note="Network error")`; a body that fails to decode
raises `json.JSONDecodeError`, which is neither of those and escapes. -/
def _get_json (transport : Transport) (path : String) : Except PyExc Snapshot :=
  let url := BASE_URL ++ path
  match transport url with
  | .clientError => .error (.ingApiError ⟨none, some url, none, some "Network error"⟩)
  | .response status body text =>
    if status ≠ 200 then
      .error (.ingApiError ⟨some status, some url, some text, none⟩)
    else
      match body with
      | .malformed => .error .jsonDecodeError
      | .decoded d => .ok d

/-- `IngApiClient.fetch_instrument_header` (api_client.py lines 71–78):
a truthy `exchange_code` is appended as a query parameter. -/
def fetch_instrument_header (transport : Transport) (isin : String)
    (exchange_code : Option String) : Except PyExc Snapshot :=
  let path := instrumentHeaderPath isin
  let path :=
    match exchange_code with
    | some ec => if ec ≠ "" then path ++ "?exchangeCode=" ++ ec else path
    | none => path
  _get_json transport path

/-! ### coordinator.py: `_async_update_data` and the refresh wrapper -/

/-- The configuration-entry fields the coordinator reads. -/
structure Config where
  isin : String
  exchange_code : Option String

/-- The coordinator state mutated by a refresh cycle: `self.data` (the
cached snapshot held by the host framework, `None` until the first
success) and `self.update_interval` in whole seconds. -/
structure CoordState where
  data : Option Snapshot
  update_interval : Nat

/-- The inline fallback condition
`data and ("price" not in data or data.get("price") is None)`
(coordinator.py lines 89 and 119): a truthy (non-empty) dict whose
`"price"` key is absent or `None`. -/
def fallbackCond (data : Snapshot) : Bool :=
  !data.isEmpty &&
    (match dictGet "price" data with
     | none => true
     | some v => isPyNone v)

/-- `except IngApiError as err: raise UpdateFailed(err)`: an `IngApiError`
is caught and wrapped in `UpdateFailed`; any other exception propagates
unchanged. -/
def coordWrap (e : PyExc) : PyExc :=
  match e with
  | .ingApiError ie => .updateFailed (.ingApiError ie)
  | other => other

/-- The fetch-then-fallback block that coordinator.py writes out twice,
identically, in the unknown-market branch (lines 84–94) and the open
branch (lines 114–125); also records the `fetch_instrument_header`
invocations as `(isin, exchange_code)` pairs. -/
def fetchWithFallback (transport : Transport) (isin : String)
    (exchange_code : Option String) :
    Except PyExc Snapshot × List (String × Option String) :=
  match fetch_instrument_header transport isin exchange_code with
  | .error e => (.error (coordWrap e), [(isin, exchange_code)])
  | .ok data =>
    if fallbackCond data then
      match fetch_instrument_header transport isin none with
      | .error e => (.error (coordWrap e), [(isin, exchange_code), (isin, none)])
      | .ok data2 => (.ok data2, [(isin, exchange_code), (isin, none)])
    else (.ok data, [(isin, exchange_code)])

/-- The world a refresh cycle runs in: the network and the wall clock. -/
structure World where
  transport : Transport
  clock : Clock

/-- What one `_async_update_data` call produces: its return value or the
exception it raises, the `self.update_interval` in force afterwards,
whether `set_update_interval` was invoked, and the list of
`fetch_instrument_header` calls it issued. -/
structure UpdResult where
  result : Except PyExc Snapshot
  update_interval : Nat
  wroteInterval : Bool
  calls : List (String × Option String)

/-- `QuotesCoordinator._async_update_data` (coordinator.py lines 76–125).
Branches: unknown market (fetch with fallback, interval untouched); known
market (interval set to the open/closed constant when it differs, written
before any fetch); closed with cached data (return the cache, no fetch);
closed without data (one seed fetch, no fallback); open (fetch with
fallback). -/
def _async_update_data (w : World) (cfg : Config) (st : CoordState) : UpdResult :=
  let isin := cfg.isin
  let exchange_code := cfg.exchange_code
  match _is_market_open w.clock exchange_code with
  | .error e => ⟨.error e, st.update_interval, false, []⟩
  | .ok none =>
    let fb := fetchWithFallback w.transport isin exchange_code
    ⟨fb.1, st.update_interval, false, fb.2⟩
  | .ok (some market_state) =>
    let desired := if market_state then OPEN_UPDATE_INTERVAL else CLOSED_UPDATE_INTERVAL
    let iw : Nat × Bool :=
      if st.update_interval ≠ desired then (desired, true)
      else (st.update_interval, false)
    if market_state = false then
      match st.data with
      | some d => ⟨.ok d, iw.1, iw.2, []⟩
      | none =>
        match fetch_instrument_header w.transport isin exchange_code with
        | .error e => ⟨.error (coordWrap e), iw.1, iw.2, [(isin, exchange_code)]⟩
        | .ok data => ⟨.ok data, iw.1, iw.2, [(isin, exchange_code)]⟩
    else
      let fb := fetchWithFallback w.transport isin exchange_code
      ⟨fb.1, iw.1, iw.2, fb.2⟩

/-- A finished refresh cycle as seen from the outside. -/
structure RefreshOut where
  result : Except PyExc Snapshot
  state : CoordState
  wroteInterval : Bool
  calls : List (String × Option String)

/-- A `refresh()` cycle: `_async_update_data` under the host framework's
`DataUpdateCoordinator` contract — the returned dict becomes `self.data`
on success, and `self.data` is left unchanged when the update raises
(spec §3 Coordinator State, §7). -/
def refresh (w : World) (cfg : Config) (st : CoordState) : RefreshOut :=
  let u := _async_update_data w cfg st
  match u.result with
  | .ok d => ⟨.ok d, ⟨some d, u.update_interval⟩, u.wroteInterval, u.calls⟩
  | .error e => ⟨.error e, ⟨st.data, u.update_interval⟩, u.wroteInterval, u.calls⟩

/-! ### Concrete fixtures for witnesses and counterexamples -/

/-- A Monday, 12:00:00 local time (weekday 0 as in `datetime.weekday()`). -/
def monNoon : LocalDT := ⟨⟨0, by decide⟩, 12, 0, 0, 0⟩

/-- A Sunday, 12:00:00 local time. -/
def sunNoon : LocalDT := ⟨⟨6, by decide⟩, 12, 0, 0, 0⟩

/-- A clock showing Monday noon in every timezone. -/
def clockMon : Clock := fun _ => monNoon

/-- A clock showing Sunday noon in every timezone. -/
def clockSun : Clock := fun _ => sunNoon

/-- A snapshot with a usable price. -/
def snapGood : Snapshot := [("price", PyVal.pyInt 100)]

/-- A non-empty snapshot without a `"price"` key. -/
def snapNoPrice : Snapshot := [("name", PyVal.pyStr "Testpapier")]

/-- A network on which every GET succeeds with `snapGood`. -/
def transportGood : Transport := fun _ => .response 200 (.decoded snapGood) ""

/-- A network on which every GET yields HTTP 500 with body text "oops". -/
def transportHttp500 : Transport := fun _ => .response 500 (.decoded []) "oops"

/-- A network on which every GET yields HTTP 200 with a malformed body. -/
def transportMalformed : Transport := fun _ => .response 200 .malformed ""

/-- A network on which every GET yields HTTP 200 decoding to the empty
dict. -/
def transportEmptyDict : Transport := fun _ => .response 200 (.decoded []) ""

/-- A network on which the exchange-qualified header URL for
`TESTISIN0001` at exchange `XYZ` yields a priceless snapshot and every
other URL yields `snapGood`. -/
def transportFallback : Transport := fun url =>
  if url = BASE_URL ++ "components-ng/instrumentheader/TESTISIN0001?exchangeCode=XYZ"
  then .response 200 (.decoded snapNoPrice) ""
  else .response 200 (.decoded snapGood) ""

/-- A network on which the exchange-qualified header URL for
`TESTISIN0001` at exchange `XYZ` yields the empty dict and every other
URL yields `snapGood`. -/
def transportEmptyAtXYZ : Transport := fun url =>
  if url = BASE_URL ++ "components-ng/instrumentheader/TESTISIN0001?exchangeCode=XYZ"
  then .response 200 (.decoded []) ""
  else .response 200 (.decoded snapGood) ""

/-- The spec's failure taxonomy read on the embedded exceptions: a
NetworkError or HttpError surfaces as an `IngApiError` wrapped in
`UpdateFailed` by the coordinator; the code has no representative of the
spec's ParseError, so nothing else counts as classified. -/
def classifiedFailure : PyExc → Bool
  | .updateFailed (.ingApiError _) => true
  | _ => false

/-! ### Helper lemmas about the fetch-with-fallback block -/

/-- Exhaustive behaviour of `fetchWithFallback`: a failing primary fetch
stops after one call with the wrapped error; a succeeding primary fetch
either returns directly (fallback condition false) or is followed by
exactly one unqualified call whose outcome decides the block. -/
theorem fetchWithFallback_cases (t : Transport) (i : String) (ec : Option String) :
    (∃ e, fetch_instrument_header t i ec = .error e ∧
       fetchWithFallback t i ec = (.error (coordWrap e), [(i, ec)])) ∨
    (∃ d, fetch_instrument_header t i ec = .ok d ∧ fallbackCond d = false ∧
       fetchWithFallback t i ec = (.ok d, [(i, ec)])) ∨
    (∃ d, fetch_instrument_header t i ec = .ok d ∧ fallbackCond d = true ∧
       fetchWithFallback t i ec =
         ((match fetch_instrument_header t i none with
           | .ok d2 => .ok d2
           | .error e => .error (coordWrap e)), [(i, ec), (i, none)])) := by
  cases hp : fetch_instrument_header t i ec with
  | error e =>
    exact Or.inl ⟨e, rfl, by unfold fetchWithFallback; rw [hp]⟩
  | ok d =>
    by_cases hf : fallbackCond d
    · refine Or.inr (Or.inr ⟨d, rfl, hf, ?_⟩)
      unfold fetchWithFallback
      rw [hp]
      simp only [hf, if_true]
      cases fetch_instrument_header t i none <;> rfl
    · refine Or.inr (Or.inl ⟨d, rfl, by simpa using hf, ?_⟩)
      unfold fetchWithFallback
      rw [hp]
      simp [hf]

/-! ### Helper lemmas about the exceptions each layer can produce -/

/-- A successful dict lookup exhibits a table entry. -/
theorem dictGet_mem {α : Type} (k : String) (l : List (String × α)) (v : α)
    (h : dictGet k l = some v) : (k, v) ∈ l := by
  induction l with
  | nil => simp [dictGet] at h
  | cons p rest ih =>
    obtain ⟨k', v'⟩ := p
    rw [dictGet] at h
    by_cases hk : k = k'
    · rw [if_pos hk] at h
      subst hk
      simp at h
      subst h
      exact List.mem_cons_self _ _
    · rw [if_neg hk] at h
      exact List.mem_cons_of_mem _ (ih h)

/-- Every entry of the shipped `MARKET_HOURS` table has well-formed
schedule strings. -/
theorem market_hours_wf :
    (MARKET_HOURS.all fun p => infoWellFormed p.2) = true := by decide

/-- The weekday key selected for any weekday index is one of the seven
table keys. -/
theorem weekday_key_mem (i : Fin 7) : WEEKDAYS.getD i.val "" ∈ WEEKDAYS := by
  fin_cases i <;> simp [WEEKDAYS]

/-- An `Except` value with `isOk` set is an `ok`. -/
theorem exceptIsOk_exists {ε α : Type} (x : Except ε α) (h : x.isOk = true) :
    ∃ a, x = .ok a := by
  cases x with
  | ok a => exact ⟨a, rfl⟩
  | error e1 => simp [Except.isOk, Except.toBool] at h

/-- The session-window test raises nothing when its two strings are each
empty or parseable. -/
theorem sessionWindow_no_error (o c : String) (now_local : LocalDT) (e : PyExc)
    (h : (o == "" || c == "" || ((parseHM o).isOk && (parseHM c).isOk)) = true) :
    sessionWindow o c now_local ≠ .error e := by
  unfold sessionWindow
  by_cases ho : o = ""
  · simp [ho]
  · by_cases hc : c = ""
    · simp [hc]
    · rw [if_neg (by simp [ho, hc])]
      have ho' : (o == "") = false := by simpa using ho
      have hc' : (c == "") = false := by simpa using hc
      rw [ho', hc'] at h
      simp only [Bool.false_or, Bool.and_eq_true] at h
      obtain ⟨hpo, hpc⟩ := h
      obtain ⟨⟨o_h, o_m⟩, hpo'⟩ := exceptIsOk_exists _ hpo
      obtain ⟨⟨c_h, c_m⟩, hpc'⟩ := exceptIsOk_exists _ hpc
      rw [hpo', hpc']
      by_cases hov :
          (now_local.replaceHM c_h c_m).timeLe (now_local.replaceHM o_h o_m) = true <;>
        simp [hov]

/-- On a well-formed entry the post-timezone body never raises: the
`ValueError` paths of the hour:minute parser are unreachable. -/
theorem marketOpenAt_no_error (info : MarketInfo) (hwf : infoWellFormed info = true)
    (now_local : LocalDT) (e : PyExc) :
    marketOpenAt info now_local ≠ .error e := by
  unfold marketOpenAt
  rw [infoWellFormed, List.all_eq_true] at hwf
  exact sessionWindow_no_error _ _ now_local e
    (by simpa using hwf _ (weekday_key_mem now_local.weekday))

/-- The only exception `_is_market_open` can raise on the shipped table is
the timezone lookup failure. -/
theorem _is_market_open_error_shape (clock : Clock) (ec : Option String)
    (e : PyExc) (h : _is_market_open clock ec = .error e) :
    ∃ k, e = .zoneInfoNotFoundError k := by
  unfold _is_market_open at h
  cases ec with
  | none => simp at h
  | some s =>
    dsimp only at h
    by_cases hs : s = ""
    · rw [if_pos hs] at h; simp at h
    · rw [if_neg hs] at h
      cases hget : dictGet s MARKET_HOURS with
      | none => rw [hget] at h; simp at h
      | some info =>
        rw [hget] at h
        dsimp only at h
        have hmem : (s, info) ∈ MARKET_HOURS := dictGet_mem s MARKET_HOURS info hget
        have hwf : infoWellFormed info = true := by
          have hall := market_hours_wf
          rw [List.all_eq_true] at hall
          simpa using hall (s, info) hmem
        by_cases htz : info.tz = ""
        · rw [if_neg (by simp [htz])] at h
          exact absurd h (marketOpenAt_no_error info hwf _ e)
        · rw [if_pos htz] at h
          by_cases hv : zoneInfoValid info.tz = true
          · rw [if_pos hv] at h
            exact absurd h (marketOpenAt_no_error info hwf _ e)
          · rw [if_neg hv] at h
            exact ⟨info.tz, by simpa using h.symm⟩

/-- Any exception of `_get_json` is an `IngApiError` or the JSON decode
error of a malformed body. -/
theorem get_json_error_shape (t : Transport) (p : String) (e : PyExc)
    (h : _get_json t p = .error e) :
    (∃ ie, e = .ingApiError ie) ∨ e = .jsonDecodeError := by
  unfold _get_json at h
  dsimp only at h
  cases htr : t (BASE_URL ++ p) with
  | clientError =>
    rw [htr] at h
    refine Or.inl ⟨⟨none, some (BASE_URL ++ p), none, some "Network error"⟩, ?_⟩
    simpa using h.symm
  | response status body text =>
    rw [htr] at h
    dsimp only at h
    by_cases hst : status ≠ 200
    · rw [if_pos hst] at h
      refine Or.inl ⟨⟨some status, some (BASE_URL ++ p), some text, none⟩, ?_⟩
      simpa using h.symm
    · rw [if_neg hst] at h
      cases body with
      | malformed => exact Or.inr (by simpa using h.symm)
      | decoded d => simp at h

/-- Any exception of `fetch_instrument_header` is an `IngApiError` or a
JSON decode error. -/
theorem fetch_error_shape (t : Transport) (i : String) (ec : Option String)
    (e : PyExc) (h : fetch_instrument_header t i ec = .error e) :
    (∃ ie, e = .ingApiError ie) ∨ e = .jsonDecodeError := by
  unfold fetch_instrument_header at h
  dsimp only at h
  exact get_json_error_shape t _ e h

/-- Wrapping a fetch-layer exception keeps it in the two shapes the
coordinator can re-raise. -/
theorem coordWrap_shape (e0 : PyExc)
    (h : (∃ ie, e0 = .ingApiError ie) ∨ e0 = .jsonDecodeError) :
    (∃ ie, coordWrap e0 = .updateFailed (.ingApiError ie)) ∨
      coordWrap e0 = .jsonDecodeError := by
  rcases h with ⟨ie, rfl⟩ | rfl
  · exact Or.inl ⟨ie, rfl⟩
  · exact Or.inr rfl

/-- The refresh wrapper passes `_async_update_data`'s outcome through
unchanged. -/
theorem refresh_result_eq (w : World) (cfg : Config) (st : CoordState) :
    (refresh w cfg st).result = (_async_update_data w cfg st).result := by
  unfold refresh
  dsimp only
  cases h : (_async_update_data w cfg st).result <;> simp [h]

/-- The refresh wrapper either keeps the cache (failure) or installs the
returned snapshot (success). -/
theorem refresh_data_cases (w : World) (cfg : Config) (st : CoordState) :
    (refresh w cfg st).state.data = st.data ∨
      ∃ d, (refresh w cfg st).result = .ok d ∧
        (refresh w cfg st).state.data = some d := by
  unfold refresh
  dsimp only
  cases hu : (_async_update_data w cfg st).result with
  | ok d => exact Or.inr ⟨d, by rfl, by rfl⟩
  | error e => exact Or.inl (by rfl)

/-- The refresh wrapper passes the recorded fetch calls through
unchanged. -/
theorem refresh_calls_eq (w : World) (cfg : Config) (st : CoordState) :
    (refresh w cfg st).calls = (_async_update_data w cfg st).calls := by
  unfold refresh
  dsimp only
  cases h : (_async_update_data w cfg st).result <;> simp [h]

/-- Exhaustive characterisation of one update cycle by its recorded fetch
calls: no call (market-check error or closed-with-cache), one call
(whose outcome, wrapped on error, is the cycle's outcome), or the
fallback pair (primary succeeded with the missing-price condition and the
second call's outcome decides the cycle). -/
theorem upd_calls_characterize (w : World) (cfg : Config) (st : CoordState) :
    ((_async_update_data w cfg st).calls = [] ∧
      ((∃ e, _is_market_open w.clock cfg.exchange_code = .error e ∧
          (_async_update_data w cfg st).result = .error e) ∨
        (∃ d, (_async_update_data w cfg st).result = .ok d))) ∨
    ((_async_update_data w cfg st).calls = [(cfg.isin, cfg.exchange_code)] ∧
      (_async_update_data w cfg st).result =
        (match fetch_instrument_header w.transport cfg.isin cfg.exchange_code with
         | .ok d => .ok d
         | .error e => .error (coordWrap e))) ∨
    ((_async_update_data w cfg st).calls =
        [(cfg.isin, cfg.exchange_code), (cfg.isin, none)] ∧
      (∃ d, fetch_instrument_header w.transport cfg.isin cfg.exchange_code = .ok d ∧
        fallbackCond d = true) ∧
      (_async_update_data w cfg st).result =
        (match fetch_instrument_header w.transport cfg.isin none with
         | .ok d2 => .ok d2
         | .error e => .error (coordWrap e))) := by
  unfold _async_update_data
  dsimp only
  cases hmo : _is_market_open w.clock cfg.exchange_code with
  | error e => exact Or.inl ⟨rfl, Or.inl ⟨e, rfl, rfl⟩⟩
  | ok mso =>
    cases mso with
    | none =>
      rcases fetchWithFallback_cases w.transport cfg.isin cfg.exchange_code with
        ⟨e0, hp, hfb⟩ | ⟨d, hp, hcond, hfb⟩ | ⟨d, hp, hcond, hfb⟩
      · refine Or.inr (Or.inl ⟨by rw [hfb], ?_⟩)
        rw [hfb, hp]
      · refine Or.inr (Or.inl ⟨by rw [hfb], ?_⟩)
        rw [hfb, hp]
      · exact Or.inr (Or.inr ⟨by rw [hfb], ⟨d, hp, hcond⟩, by rw [hfb]⟩)
    | some ms =>
      cases ms with
      | true =>
        rcases fetchWithFallback_cases w.transport cfg.isin cfg.exchange_code with
          ⟨e0, hp, hfb⟩ | ⟨d, hp, hcond, hfb⟩ | ⟨d, hp, hcond, hfb⟩
        · refine Or.inr (Or.inl ⟨by rw [hfb]; try rfl, ?_⟩)
          rw [hfb, hp]
          try rfl
        · refine Or.inr (Or.inl ⟨by rw [hfb]; try rfl, ?_⟩)
          rw [hfb, hp]
          try rfl
        · exact Or.inr (Or.inr ⟨by rw [hfb]; try rfl, ⟨d, hp, hcond⟩,
            by rw [hfb]; try rfl⟩)
      | false =>
        cases hd : st.data with
        | some d0 => exact Or.inl ⟨by rfl, Or.inr ⟨d0, by rfl⟩⟩
        | none =>
          cases hp : fetch_instrument_header w.transport cfg.isin cfg.exchange_code <;>
            exact Or.inr (Or.inl ⟨by rfl, by rfl⟩)

/-! ### Claim theorems -/

/-- C1: when the market state for the configured exchange is Closed and a
cached snapshot exists, `refresh()` performs zero Quote Source calls,
returns exactly the cached snapshot, and leaves it cached unchanged. -/
theorem c1_closed_cached_skips_fetch (w : World) (cfg : Config)
    (st : CoordState) (d : Snapshot)
    (hm : _is_market_open w.clock cfg.exchange_code = .ok (some false))
    (hd : st.data = some d) :
    (refresh w cfg st).calls = [] ∧
    (refresh w cfg st).result = .ok d ∧
    (refresh w cfg st).state.data = some d := by
  unfold refresh _async_update_data
  dsimp only
  rw [hm, hd]
  simp

/-- Witness for C1 at a concrete closed-market world with a cached
snapshot. -/
theorem c1_witness :
    (refresh ⟨transportGood, clockSun⟩ ⟨"TESTISIN0001", some "TGT"⟩
        ⟨some snapGood, 60⟩).calls = [] ∧
    (refresh ⟨transportGood, clockSun⟩ ⟨"TESTISIN0001", some "TGT"⟩
        ⟨some snapGood, 60⟩).result = .ok snapGood ∧
    (refresh ⟨transportGood, clockSun⟩ ⟨"TESTISIN0001", some "TGT"⟩
        ⟨some snapGood, 60⟩).state.data = some snapGood :=
  c1_closed_cached_skips_fetch ⟨transportGood, clockSun⟩
    ⟨"TESTISIN0001", some "TGT"⟩ ⟨some snapGood, 60⟩ snapGood (by rfl) rfl

/-- C2: the fallback retry happens only after a primary fetch that
succeeded with a snapshot satisfying the missing-price condition; if the
primary fetch raises a classified (network or HTTP) `IngApiError`, the
refresh fails at once with that error wrapped in `UpdateFailed` and no
second fetch is attempted. -/
theorem c2_fallback_only_after_success (w : World) (cfg : Config) (st : CoordState) :
    (2 ≤ (refresh w cfg st).calls.length →
      ∃ d, fetch_instrument_header w.transport cfg.isin cfg.exchange_code = .ok d ∧
        fallbackCond d = true) ∧
    (∀ ie, fetch_instrument_header w.transport cfg.isin cfg.exchange_code =
        .error (.ingApiError ie) →
      (refresh w cfg st).calls ≠ [] →
      (refresh w cfg st).result = .error (.updateFailed (.ingApiError ie)) ∧
      (refresh w cfg st).calls = [(cfg.isin, cfg.exchange_code)]) := by
  unfold refresh _async_update_data
  dsimp only
  cases hmo : _is_market_open w.clock cfg.exchange_code with
  | error e => simp
  | ok mso =>
    cases mso with
    | none =>
      rcases fetchWithFallback_cases w.transport cfg.isin cfg.exchange_code with
        ⟨e, hp, hfb⟩ | ⟨d, hp, hcond, hfb⟩ | ⟨d, hp, hcond, hfb⟩
      · rw [hfb]
        constructor
        · intro h2; simp at h2
        · intro ie hie _
          rw [hp] at hie
          have he : e = .ingApiError ie := by
            simpa using hie
          subst he
          simp [coordWrap]
      · rw [hfb]
        constructor
        · intro h2; simp at h2
        · intro ie hie
          rw [hp] at hie
          simp at hie
      · rw [hfb]
        constructor
        · intro _; exact ⟨d, hp, hcond⟩
        · intro ie hie
          rw [hp] at hie
          simp at hie
    | some ms =>
      cases ms with
      | true =>
        rcases fetchWithFallback_cases w.transport cfg.isin cfg.exchange_code with
          ⟨e, hp, hfb⟩ | ⟨d, hp, hcond, hfb⟩ | ⟨d, hp, hcond, hfb⟩
        · simp only [hfb]
          constructor
          · intro h2; simp at h2
          · intro ie hie _
            rw [hp] at hie
            have he : e = .ingApiError ie := by
              simpa using hie
            subst he
            simp [coordWrap]
        · simp only [hfb]
          constructor
          · intro h2; simp at h2
          · intro ie hie
            rw [hp] at hie
            simp at hie
        · simp only [hfb]
          constructor
          · intro _; exact ⟨d, hp, hcond⟩
          · intro ie hie
            rw [hp] at hie
            simp at hie
      | false =>
        cases hd : st.data with
        | some d0 => simp
        | none =>
          cases hp : fetch_instrument_header w.transport cfg.isin cfg.exchange_code with
          | error e =>
            constructor
            · intro h2; simp at h2
            · intro ie hie _
              have he : e = .ingApiError ie := by
                simpa using hie
              subst he
              simp [coordWrap]
          | ok d =>
            constructor
            · intro h2; simp at h2
            · intro ie hie
              simp at hie

/-- Witness for C2 at a concrete open-market world whose primary fetch
fails with HTTP 500: the refresh fails with that wrapped error after the
single call. -/
theorem c2_witness :
    (refresh ⟨transportHttp500, clockMon⟩ ⟨"TESTISIN0001", some "TGT"⟩
        ⟨some snapGood, 60⟩).result =
      .error (.updateFailed (.ingApiError
        ⟨some 500,
         some (BASE_URL ++ "components-ng/instrumentheader/TESTISIN0001?exchangeCode=TGT"),
         some "oops", none⟩)) ∧
    (refresh ⟨transportHttp500, clockMon⟩ ⟨"TESTISIN0001", some "TGT"⟩
        ⟨some snapGood, 60⟩).calls = [("TESTISIN0001", some "TGT")] :=
  (c2_fallback_only_after_success ⟨transportHttp500, clockMon⟩
      ⟨"TESTISIN0001", some "TGT"⟩ ⟨some snapGood, 60⟩).2
    ⟨some 500,
     some (BASE_URL ++ "components-ng/instrumentheader/TESTISIN0001?exchangeCode=TGT"),
     some "oops", none⟩ (by rfl) (by decide)

/-- C3 counterexample: at a concrete Unknown-market input the primary
fetch succeeds with the empty dict — a snapshot lacking a usable price
field — yet `refresh()` performs no additional fetch, because the source
guards the fallback with dict truthiness (`data and ...`); the single
qualified call's empty result is returned as is. -/
theorem c3_counterexample_empty_snapshot :
    _is_market_open clockMon (some "XYZ") = .ok none ∧
    fetch_instrument_header transportEmptyAtXYZ "TESTISIN0001" (some "XYZ") =
      .ok [] ∧
    dictGet "price" ([] : Snapshot) = none ∧
    (refresh ⟨transportEmptyAtXYZ, clockMon⟩ ⟨"TESTISIN0001", some "XYZ"⟩
        ⟨none, 60⟩).calls = [("TESTISIN0001", some "XYZ")] ∧
    (refresh ⟨transportEmptyAtXYZ, clockMon⟩ ⟨"TESTISIN0001", some "XYZ"⟩
        ⟨none, 60⟩).result = .ok [] :=
  ⟨rfl, rfl, rfl, rfl, rfl⟩

/-- C3 (amended): in the Open or Unknown market state, when the primary
fetch succeeds with a non-empty snapshot lacking a usable price (the
source's truthiness-guarded condition), `refresh()` performs exactly one
additional fetch with no exchange id; the refresh outcome is that second
fetch's result — its snapshot is stored and returned on success, its
error (wrapped when classified) propagates on failure. -/
theorem c3_amended_fallback_decides (w : World) (cfg : Config) (st : CoordState)
    (d : Snapshot)
    (hm : _is_market_open w.clock cfg.exchange_code = .ok none ∨
      _is_market_open w.clock cfg.exchange_code = .ok (some true))
    (hp : fetch_instrument_header w.transport cfg.isin cfg.exchange_code = .ok d)
    (hf : fallbackCond d = true) :
    (refresh w cfg st).calls = [(cfg.isin, cfg.exchange_code), (cfg.isin, none)] ∧
    (refresh w cfg st).result =
      (match fetch_instrument_header w.transport cfg.isin none with
       | .ok d2 => .ok d2
       | .error e => .error (coordWrap e)) ∧
    (refresh w cfg st).state.data =
      (match fetch_instrument_header w.transport cfg.isin none with
       | .ok d2 => some d2
       | .error _ => st.data) := by
  have hfb : fetchWithFallback w.transport cfg.isin cfg.exchange_code =
      ((match fetch_instrument_header w.transport cfg.isin none with
        | .ok d2 => .ok d2
        | .error e => .error (coordWrap e)),
       [(cfg.isin, cfg.exchange_code), (cfg.isin, none)]) := by
    rcases fetchWithFallback_cases w.transport cfg.isin cfg.exchange_code with
      ⟨e, hp', _⟩ | ⟨d', hp', hcond, _⟩ | ⟨d', hp', _, hfb⟩
    · rw [hp] at hp'; simp at hp'
    · rw [hp] at hp'
      have : d' = d := by simpa using hp'.symm
      subst this
      rw [hf] at hcond; simp at hcond
    · exact hfb
  unfold refresh _async_update_data
  dsimp only
  rcases hm with hm | hm <;> rw [hm] <;> dsimp only <;> rw [hfb] <;>
    cases hsec : fetch_instrument_header w.transport cfg.isin none <;> simp [hsec]

/-- Witness for C3 (amended) at a concrete Unknown-market world: the
qualified fetch yields a non-empty priceless snapshot, the unqualified
retry yields `snapGood`, which is returned and cached. -/
theorem c3_witness :
    (refresh ⟨transportFallback, clockMon⟩ ⟨"TESTISIN0001", some "XYZ"⟩
        ⟨none, 60⟩).calls =
      [("TESTISIN0001", some "XYZ"), ("TESTISIN0001", none)] ∧
    (refresh ⟨transportFallback, clockMon⟩ ⟨"TESTISIN0001", some "XYZ"⟩
        ⟨none, 60⟩).result = .ok snapGood ∧
    (refresh ⟨transportFallback, clockMon⟩ ⟨"TESTISIN0001", some "XYZ"⟩
        ⟨none, 60⟩).state.data = some snapGood := by
  have h := c3_amended_fallback_decides ⟨transportFallback, clockMon⟩
    ⟨"TESTISIN0001", some "XYZ"⟩ ⟨none, 60⟩ snapNoPrice (Or.inl (by rfl))
    (by rfl) (by rfl)
  exact ⟨h.1, h.2.1.trans (by rfl), h.2.2.trans (by rfl)⟩

/-- C4: when the market state is Closed and no snapshot is cached yet,
`refresh()` performs exactly one Quote Source call (with the configured
exchange id, never the fallback retry), and on success caches and returns
that call's result. -/
theorem c4_closed_seed_single_fetch (w : World) (cfg : Config)
    (st : CoordState)
    (hm : _is_market_open w.clock cfg.exchange_code = .ok (some false))
    (hd : st.data = none) :
    (refresh w cfg st).calls = [(cfg.isin, cfg.exchange_code)] ∧
    (∀ d, fetch_instrument_header w.transport cfg.isin cfg.exchange_code = .ok d →
      (refresh w cfg st).result = .ok d ∧
      (refresh w cfg st).state.data = some d) := by
  unfold refresh _async_update_data
  dsimp only
  rw [hm, hd]
  cases hf : fetch_instrument_header w.transport cfg.isin cfg.exchange_code <;>
    simp [hf]

/-- Witness for C4 at a concrete closed-market world with an empty cache:
the one seed fetch returns a priceless empty dict and no fallback fires. -/
theorem c4_witness :
    (refresh ⟨transportEmptyDict, clockSun⟩ ⟨"TESTISIN0001", some "TGT"⟩
        ⟨none, 60⟩).calls = [("TESTISIN0001", some "TGT")] ∧
    (refresh ⟨transportEmptyDict, clockSun⟩ ⟨"TESTISIN0001", some "TGT"⟩
        ⟨none, 60⟩).result = .ok [] ∧
    (refresh ⟨transportEmptyDict, clockSun⟩ ⟨"TESTISIN0001", some "TGT"⟩
        ⟨none, 60⟩).state.data = some [] := by
  have h := c4_closed_seed_single_fetch ⟨transportEmptyDict, clockSun⟩
    ⟨"TESTISIN0001", some "TGT"⟩ ⟨none, 60⟩ (by rfl) rfl
  exact ⟨h.1, (h.2 [] rfl).1, (h.2 [] rfl).2⟩

/-- C6: after a refresh in a known market state the poll interval equals
the fast constant when Open and the slow constant when Closed, with fast
strictly below slow; `set_update_interval` is invoked exactly when the
interval in force differs from the desired one; and the cycle's own
outcome and fetch calls do not depend on the interval in force — the
change only matters for scheduling the next cycle. -/
theorem c6_interval_adaptation (w : World) (cfg : Config) (st : CoordState)
    (ms : Bool)
    (hm : _is_market_open w.clock cfg.exchange_code = .ok (some ms)) :
    (refresh w cfg st).state.update_interval =
      (if ms then OPEN_UPDATE_INTERVAL else CLOSED_UPDATE_INTERVAL) ∧
    OPEN_UPDATE_INTERVAL < CLOSED_UPDATE_INTERVAL ∧
    ((refresh w cfg st).wroteInterval = true ↔
      st.update_interval ≠
        (if ms then OPEN_UPDATE_INTERVAL else CLOSED_UPDATE_INTERVAL)) ∧
    (∀ n, (refresh w cfg ⟨st.data, n⟩).result = (refresh w cfg st).result ∧
      (refresh w cfg ⟨st.data, n⟩).calls = (refresh w cfg st).calls) := by
  have hfast : OPEN_UPDATE_INTERVAL < CLOSED_UPDATE_INTERVAL := by decide
  unfold refresh _async_update_data
  dsimp only
  rw [hm]
  cases ms with
  | false =>
    cases hd : st.data with
    | some d0 =>
      refine ⟨?_, hfast, ?_, ?_⟩ <;>
        by_cases hi : st.update_interval = CLOSED_UPDATE_INTERVAL <;>
          simp [hi, hd]
    | none =>
      cases hp : fetch_instrument_header w.transport cfg.isin cfg.exchange_code <;>
        (refine ⟨?_, hfast, ?_, ?_⟩ <;>
          by_cases hi : st.update_interval = CLOSED_UPDATE_INTERVAL <;>
            simp [hi, hd, hp])
  | true =>
    rcases fetchWithFallback_cases w.transport cfg.isin cfg.exchange_code with
      ⟨e, hp, hfb⟩ | ⟨d, hp, hcond, hfb⟩ | ⟨d, hp, hcond, hfb⟩ <;>
      (refine ⟨?_, hfast, ?_, ?_⟩ <;>
        by_cases hi : st.update_interval = OPEN_UPDATE_INTERVAL <;>
          cases hsec : fetch_instrument_header w.transport cfg.isin none <;>
            simp [hi, hfb, hsec])

/-- Witness for C6 at a concrete closed-market world where the interval
in force is the open-market constant: the refresh switches it to the slow
constant and reports the write. -/
theorem c6_witness :
    (refresh ⟨transportGood, clockSun⟩ ⟨"TESTISIN0001", some "TGT"⟩
        ⟨some snapGood, 60⟩).state.update_interval = 900 ∧
    (refresh ⟨transportGood, clockSun⟩ ⟨"TESTISIN0001", some "TGT"⟩
        ⟨some snapGood, 60⟩).wroteInterval = true := by
  have h := c6_interval_adaptation ⟨transportGood, clockSun⟩
    ⟨"TESTISIN0001", some "TGT"⟩ ⟨some snapGood, 60⟩ false (by rfl)
  exact ⟨h.1.trans (by rfl), h.2.2.1.mpr (by decide)⟩

/-- C7: in the Unknown market state `refresh()` always performs a live
fetch whose first call carries the configured exchange id, leaves the
poll interval untouched without writing it, propagates a classified
primary-fetch failure as a wrapped refresh failure, and only ever returns
a snapshot produced by one of its fetches — never the cache. -/
theorem c7_unknown_state (w : World) (cfg : Config) (st : CoordState)
    (hm : _is_market_open w.clock cfg.exchange_code = .ok none) :
    (∃ rest, (refresh w cfg st).calls = (cfg.isin, cfg.exchange_code) :: rest) ∧
    (refresh w cfg st).state.update_interval = st.update_interval ∧
    (refresh w cfg st).wroteInterval = false ∧
    (∀ ie, fetch_instrument_header w.transport cfg.isin cfg.exchange_code =
        .error (.ingApiError ie) →
      (refresh w cfg st).result = .error (.updateFailed (.ingApiError ie))) ∧
    (∀ s, (refresh w cfg st).result = .ok s →
      fetch_instrument_header w.transport cfg.isin cfg.exchange_code = .ok s ∨
      fetch_instrument_header w.transport cfg.isin none = .ok s) := by
  unfold refresh _async_update_data
  dsimp only
  rw [hm]
  rcases fetchWithFallback_cases w.transport cfg.isin cfg.exchange_code with
    ⟨e, hp, hfb⟩ | ⟨d, hp, hcond, hfb⟩ | ⟨d, hp, hcond, hfb⟩
  · rw [hfb]
    refine ⟨⟨[], by simp⟩, by simp, by simp, ?_, ?_⟩
    · intro ie hie
      rw [hp] at hie
      have he : e = .ingApiError ie := by simpa using hie
      subst he
      simp [coordWrap]
    · intro s hs
      cases he : coordWrap e <;> simp [he] at hs
  · rw [hfb]
    refine ⟨⟨[], by simp⟩, by simp, by simp, ?_, ?_⟩
    · intro ie hie
      rw [hp] at hie
      simp at hie
    · intro s hs
      simp at hs
      exact Or.inl (by rw [hp, hs])
  · rw [hfb]
    refine
      ⟨⟨[(cfg.isin, none)],
        by cases hsec : fetch_instrument_header w.transport cfg.isin none <;> simp [hsec]⟩,
       by cases hsec : fetch_instrument_header w.transport cfg.isin none <;> simp [hsec],
       by cases hsec : fetch_instrument_header w.transport cfg.isin none <;> simp [hsec],
       ?_, ?_⟩
    · intro ie hie
      rw [hp] at hie
      simp at hie
    · intro s hs
      cases hsec : fetch_instrument_header w.transport cfg.isin none <;>
        rw [hsec] at hs <;> simp at hs
      subst hs
      exact Or.inr rfl

/-- Witness for C7 at a concrete unknown-exchange world with a successful
fetch: the interval stays at the user value and the returned snapshot is
traced back to a fetch. -/
theorem c7_witness :
    (refresh ⟨transportGood, clockMon⟩ ⟨"TESTISIN0001", some "XYZ"⟩
        ⟨none, 60⟩).state.update_interval = 60 ∧
    (refresh ⟨transportGood, clockMon⟩ ⟨"TESTISIN0001", some "XYZ"⟩
        ⟨none, 60⟩).wroteInterval = false ∧
    (fetch_instrument_header transportGood "TESTISIN0001" (some "XYZ") =
        .ok snapGood ∨
      fetch_instrument_header transportGood "TESTISIN0001" none = .ok snapGood) := by
  have h := c7_unknown_state ⟨transportGood, clockMon⟩
    ⟨"TESTISIN0001", some "XYZ"⟩ ⟨none, 60⟩ (by rfl)
  exact ⟨h.2.1, h.2.2.1, h.2.2.2.2 snapGood (by rfl)⟩

/-- C8: a failed refresh leaves the cached snapshot untouched, and any
fetch the cycle performed that failed with a classified `IngApiError`
makes the refresh fail with exactly that error wrapped in
`UpdateFailed`. -/
theorem c8_failure_keeps_cache (w : World) (cfg : Config) (st : CoordState) :
    (∀ e, (refresh w cfg st).result = .error e →
      (refresh w cfg st).state.data = st.data) ∧
    (∀ a ie, (cfg.isin, a) ∈ (refresh w cfg st).calls →
      fetch_instrument_header w.transport cfg.isin a = .error (.ingApiError ie) →
      (refresh w cfg st).result = .error (.updateFailed (.ingApiError ie))) := by
  constructor
  · intro e he
    rcases refresh_data_cases w cfg st with h | ⟨d, hok, _⟩
    · exact h
    · rw [he] at hok
      simp at hok
  · intro a ie hmem hfetch
    rw [refresh_calls_eq] at hmem
    rw [refresh_result_eq]
    rcases upd_calls_characterize w cfg st with ⟨hc, _⟩ | ⟨hc, hr⟩ | ⟨hc, hok, hr⟩
    · rw [hc] at hmem; simp at hmem
    · rw [hc] at hmem
      have ha : a = cfg.exchange_code := by simpa using hmem
      subst ha
      rw [hr, hfetch]
      rfl
    · rw [hc] at hmem
      have ha : a = cfg.exchange_code ∨ a = none := by simpa using hmem
      obtain ⟨d, hp, _⟩ := hok
      rcases ha with ha | ha <;> subst ha
      · rw [hp] at hfetch; simp at hfetch
      · rw [hr, hfetch]
        rfl

/-- Witness for C8 at a concrete open-market world whose fetch fails with
HTTP 500 while a snapshot is cached: the refresh fails with the wrapped
error and the cache survives. -/
theorem c8_witness :
    (refresh ⟨transportHttp500, clockMon⟩ ⟨"TESTISIN0001", some "TGT"⟩
        ⟨some snapGood, 900⟩).result =
      .error (.updateFailed (.ingApiError
        ⟨some 500,
         some (BASE_URL ++ "components-ng/instrumentheader/TESTISIN0001?exchangeCode=TGT"),
         some "oops", none⟩)) ∧
    (refresh ⟨transportHttp500, clockMon⟩ ⟨"TESTISIN0001", some "TGT"⟩
        ⟨some snapGood, 900⟩).state.data = some snapGood := by
  have h := c8_failure_keeps_cache ⟨transportHttp500, clockMon⟩
    ⟨"TESTISIN0001", some "TGT"⟩ ⟨some snapGood, 900⟩
  have hres := h.2 (some "TGT")
    ⟨some 500,
     some (BASE_URL ++ "components-ng/instrumentheader/TESTISIN0001?exchangeCode=TGT"),
     some "oops", none⟩ (by decide) (by rfl)
  exact ⟨hres, h.1 _ hres⟩

/-- C9 counterexample: at a concrete input whose upstream body is
malformed, `refresh()` fails with the raw JSON decode error, which is not
one of the classified failures — the spec's ParseError classification does
not exist in the code. -/
theorem c9_counterexample_malformed_body :
    (refresh ⟨transportMalformed, clockMon⟩ ⟨"TESTISIN0001", some "XYZ"⟩
        ⟨none, 60⟩).result = .error .jsonDecodeError ∧
    classifiedFailure .jsonDecodeError = false :=
  ⟨rfl, rfl⟩

/-- C9 (amended): every refresh either returns a snapshot or fails with a
classified `UpdateFailed`-wrapped `IngApiError` (network or HTTP), except
that a malformed upstream body escapes as the raw JSON decode error and an
unresolvable table timezone escapes as the raw zone lookup error; no
further failure kind is possible. -/
theorem c9_amended_error_taxonomy (w : World) (cfg : Config) (st : CoordState)
    (e : PyExc) (h : (refresh w cfg st).result = .error e) :
    (∃ ie, e = .updateFailed (.ingApiError ie)) ∨ e = .jsonDecodeError ∨
      ∃ k, e = .zoneInfoNotFoundError k := by
  rw [refresh_result_eq] at h
  rcases upd_calls_characterize w cfg st with ⟨_, hres⟩ | ⟨_, hr⟩ | ⟨_, _, hr⟩
  · rcases hres with ⟨e1, hmo, hres⟩ | ⟨d, hres⟩
    · rw [h] at hres
      have he : e1 = e := by simpa using hres.symm
      subst he
      exact Or.inr (Or.inr (_is_market_open_error_shape w.clock cfg.exchange_code e1 hmo))
    · rw [h] at hres; simp at hres
  · rw [hr] at h
    cases hp : fetch_instrument_header w.transport cfg.isin cfg.exchange_code with
    | ok d => rw [hp] at h; simp at h
    | error e0 =>
      rw [hp] at h
      have he : e = coordWrap e0 := by simpa using h.symm
      subst he
      exact Or.imp id Or.inl (coordWrap_shape e0 (fetch_error_shape _ _ _ _ hp))
  · rw [hr] at h
    cases hp : fetch_instrument_header w.transport cfg.isin none with
    | ok d => rw [hp] at h; simp at h
    | error e0 =>
      rw [hp] at h
      have he : e = coordWrap e0 := by simpa using h.symm
      subst he
      exact Or.imp id Or.inl (coordWrap_shape e0 (fetch_error_shape _ _ _ _ hp))

/-- Witness for C9 (amended), applying the taxonomy to the concrete
refresh failing on a malformed body. -/
theorem c9_witness :
    (∃ ie, PyExc.jsonDecodeError = PyExc.updateFailed (.ingApiError ie)) ∨
      PyExc.jsonDecodeError = PyExc.jsonDecodeError ∨
      ∃ k, PyExc.jsonDecodeError = PyExc.zoneInfoNotFoundError k :=
  c9_amended_error_taxonomy ⟨transportMalformed, clockMon⟩
    ⟨"TESTISIN0001", some "XYZ"⟩ ⟨none, 60⟩ .jsonDecodeError (by rfl)

/-- C5: evaluation of the market-open check at a failing input.  For the
listed exchange `"USC"` the table's timezone is `"Amerika/New_York"`,
which is not an IANA tz key, so the check raises `ZoneInfoNotFoundError`
instead of returning the Open/Closed/Unknown value the reference
definition prescribes (Monday noon New York local time would be Open,
09:30 ≤ 12:00 ≤ 16:00). -/
theorem c5_usc_market_check_raises :
    _is_market_open clockMon (some "USC") =
      .error (.zoneInfoNotFoundError "Amerika/New_York") := rfl

/-- C10: evaluation of the market-open check at a failing input.  For the
listed exchange `"UTC"` (tz `"Amerika/New_York"`, not an IANA key) the
check raises `ZoneInfoNotFoundError` even on a Sunday — the timezone is
resolved before the weekday is consulted — so it is not total on the
shipped table. -/
theorem c10_utc_market_check_raises :
    _is_market_open clockSun (some "UTC") =
      .error (.zoneInfoNotFoundError "Amerika/New_York") := rfl

end IsinQuotes
